import Mathlib

/-!
Verification of the signal-generation pipeline of `signal_logic.py`
(discord-crypto-screening-tool).

The pipeline's numeric core is embedded shallowly: prices and indicator
values are rationals (`ℚ`); Python floats that can legitimately be NaN on
the confidence-scoring path are embedded as `F` (`nan` or a rational),
with IEEE comparison semantics (every comparison involving NaN is false).
Python truthiness of optional floats (`if x:` is false for `None` and for
`0.0`) is embedded as `truthyQ`.  Python's `str.lower` is embedded as
`strLower` (ASCII case folding, which is exact for the strings involved).
-/

namespace SignalLogic

/-- ASCII lowercase of a string, mirroring Python `str.lower()` for the
ASCII-only strings used by the pipeline (timeframes, direction names). -/
def strLower (s : String) : String := ⟨s.data.map Char.toLower⟩

/-- Truthiness of an optional float in Python: `None` and `0.0` are falsy,
any other number is truthy. -/
def truthyQ : Option ℚ → Bool
  | none => false
  | some x => decide (x ≠ 0)

/-- Trade direction. In the source it is the string `'long'`, `'short'` or
`'neutral'`; all tests on it are equality with those literals, so an
inductive with three constructors is a faithful embedding. -/
inductive Direction where
  | long
  | short
  | neutral
deriving DecidableEq

/-- One OHLC candle. Only the fields the verified logic reads are kept
(`high`, `low`, `close`); `open_time`, `open` and `volume` feed no claim. -/
structure Candle where
  high : ℚ
  low : ℚ
  close : ℚ
deriving DecidableEq

/-- Fair Value Gap kind, the `'type'` field of the dicts built by
`detect_fvg`. -/
inductive FVGType where
  | Bullish
  | Bearish
deriving DecidableEq

/-- Fair Value Gap record, mirroring the dict
`{'type', 'high', 'low', 'level', 'bar_index'}` built by `detect_fvg`
(signal_logic.py lines 167-183). -/
structure FVG where
  type : FVGType
  high : ℚ
  low : ℚ
  level : ℚ
  bar_index : ℕ
deriving DecidableEq

/-- Loop body of `detect_fvg` at index `i` (signal_logic.py lines 162-183):
compare candle `i` against candle `i-2`; bullish gap when `low[i] > high[i-2]`,
else bearish gap when `high[i] < low[i-2]`; level is the gap midpoint. -/
def fvgAt (df : List Candle) (i : ℕ) : Option FVG :=
  match df.get? (i - 2), df.get? i with
  | some c1, some c3 =>
    if c3.low > c1.high then
      some ⟨.Bullish, c3.low, c1.high, (c3.low + c1.high) / 2, i⟩
    else if c3.high < c1.low then
      some ⟨.Bearish, c1.low, c3.high, (c1.low + c3.high) / 2, i⟩
    else none
  | _, _ => none

/-- `detect_fvg` (signal_logic.py lines 158-185): scan `i` over
`range(2, len(df))` and collect the gaps in ascending index order. -/
def detect_fvg (df : List Candle) : List FVG :=
  (List.range' 2 (df.length - 2)).filterMap (fvgAt df)

/-- First minimal element under `|level − c|`, mirroring Python's
`min(filtered, key=lambda f: abs(f['level'] - last_candle['close']))`
(ties keep the earliest element, as Python `min` does). -/
def closestFvg (fvgs : List FVG) (c : ℚ) : Option FVG :=
  match fvgs with
  | [] => none
  | f :: fs => some (fs.foldl (fun best g =>
      if |g.level - c| < |best.level - c| then g else best) f)

/-- Result triple of `find_smc_levels`: `(ob_high, ob_low, relevant_fvg)`. -/
structure SmcLevels where
  ob_high : Option ℚ
  ob_low : Option ℚ
  relevant_fvg : Option FVG
deriving DecidableEq

/-- `find_smc_levels` (signal_logic.py lines 187-214): filter the FVGs to the
type matching the direction, pick the one whose level is closest to the last
close, and read the Order Block candle at `bar_index - 2` when that index is
not negative.  The source indexes `df.iloc[-1]` (and would raise on an empty
frame, which the pipeline's ≥50-candle guard prevents); the embedding reads
the last candle with a default for totality.  An out-of-range positive Order
Block index would raise in the source; it is unreachable for FVG lists
produced by `detect_fvg` on the same frame, and the embedding returns absent
bounds there. -/
def find_smc_levels (df : List Candle) (fvgs : List FVG) (direction : Direction) :
    SmcLevels :=
  let last_close := (df.getLastD ⟨0, 0, 0⟩).close
  let target_type : FVGType := if direction = .long then .Bullish else .Bearish
  let filtered := fvgs.filter (fun f => f.type = target_type)
  match closestFvg filtered last_close with
  | none => ⟨none, none, none⟩
  | some g =>
      if 2 ≤ g.bar_index then
        match df.get? (g.bar_index - 2) with
        | some ob => ⟨some ob.high, some ob.low, some g⟩
        | none => ⟨none, none, some g⟩
      else ⟨none, none, some g⟩

/-- Minimum of a list of rationals (`Series.min()` on a nonempty series). -/
def listMin : List ℚ → Option ℚ
  | [] => none
  | x :: xs => some (xs.foldl min x)

/-- Maximum of a list of rationals (`Series.max()` on a nonempty series). -/
def listMax : List ℚ → Option ℚ
  | [] => none
  | x :: xs => some (xs.foldl max x)

/-- `find_swing_points` (signal_logic.py lines 80-98): `None` when fewer than
`lookback` candles; otherwise the lowest low (long) or highest high (short)
of the last `lookback` candles. -/
def find_swing_points (df : List Candle) (direction : Direction)
    (lookback : ℕ) : Option ℚ :=
  if df.length < lookback then none
  else
    let recent := df.drop (df.length - lookback)
    if direction = .long then listMin (recent.map Candle.low)
    else listMax (recent.map Candle.high)

/-- Divergence flags returned by `detect_divergence`
(signal_logic.py lines 70-75). -/
structure Divergences where
  rsi_bull : Bool
  rsi_bear : Bool
  macd_bull : Bool
  macd_bear : Bool
deriving DecidableEq

/-- Auto-side determination (signal_logic.py lines 468-472): long when
`ema13 > ema21` and `rsi < 70`; short when `ema13 < ema21` and `rsi > 30`;
neutral otherwise. -/
def autoDirection (ema13 ema21 rsi_val : ℚ) : Direction :=
  if ema13 > ema21 ∧ rsi_val < 70 then .long
  else if ema13 < ema21 ∧ rsi_val > 30 then .short
  else .neutral

/-- Weak-trend filter (signal_logic.py lines 475-480): a non-neutral
direction with WEAK trend quality is downgraded to neutral unless a
divergence flag supports that direction. -/
def weakTrendFilter (d : Direction) (quality : String) (dv : Divergences) :
    Direction :=
  if d ≠ .neutral ∧ quality = "WEAK" then
    if ¬ ((d = .long ∧ (dv.rsi_bull ∨ dv.macd_bull)) ∨
          (d = .short ∧ (dv.rsi_bear ∨ dv.macd_bear))) then .neutral
    else d
  else d

/-- Forced-direction override (signal_logic.py lines 485-487): a non-empty
forced string whose lowercase form is `long` or `short` replaces the
resolved direction; anything else leaves it unchanged. -/
def applyForced (d : Direction) (forced : Option String) : Direction :=
  match forced with
  | none => d
  | some s =>
      if s ≠ "" ∧ (strLower s = "long" ∨ strLower s = "short") then
        if strLower s = "long" then .long else .short
      else d

/-- Full direction resolution of `generate_trade_plan`
(signal_logic.py lines 468-487): auto side, then weak-trend filter, then the
forced override. -/
def resolveDirection (ema13 ema21 rsi_val : ℚ) (quality : String)
    (dv : Divergences) (forced : Option String) : Direction :=
  applyForced (weakTrendFilter (autoDirection ema13 ema21 rsi_val) quality dv)
    forced

/-- Numeric fields of a non-neutral trade plan. -/
structure Plan where
  entry : ℚ
  stop : ℚ
  risk : ℚ
  tp1 : ℚ
  tp2 : ℚ
deriving DecidableEq

/-- Long entry selection (signal_logic.py lines 531-535): FVG low when a
relevant FVG and a truthy `ob_low` exist, else EMA21 when the current price
is extended more than 0.5% above it, else the current price. -/
def entryLong (rf : Option FVG) (obl : Option ℚ) (cp ema21 : ℚ) : ℚ :=
  match rf, truthyQ obl with
  | some fvg, true => fvg.low
  | _, _ => if cp > ema21 * 1.005 then ema21 else cp

/-- Short entry selection (signal_logic.py lines 565-569): FVG high when a
relevant FVG and a truthy `ob_high` exist, else EMA21 when the current price
is extended more than 0.5% below it, else the current price. -/
def entryShort (rf : Option FVG) (obh : Option ℚ) (cp ema21 : ℚ) : ℚ :=
  match rf, truthyQ obh with
  | some fvg, true => fvg.high
  | _, _ => if cp < ema21 * 0.995 then ema21 else cp

/-- Initial long stop selection (signal_logic.py lines 538-543): swing point
minus the buffer when truthy, else `ob_low` minus the buffer when truthy,
else `entry − 2×ATR`. -/
def initialStopLong (swing obl : Option ℚ) (entry atr sl_buffer : ℚ) : ℚ :=
  if truthyQ swing then swing.getD 0 - sl_buffer
  else if truthyQ obl then obl.getD 0 - sl_buffer
  else entry - atr * 2

/-- Initial short stop selection (signal_logic.py lines 572-577): swing point
plus the buffer when truthy, else `ob_high` plus the buffer when truthy,
else `entry + 2×ATR`. -/
def initialStopShort (swing obh : Option ℚ) (entry atr sl_buffer : ℚ) : ℚ :=
  if truthyQ swing then swing.getD 0 + sl_buffer
  else if truthyQ obh then obh.getD 0 + sl_buffer
  else entry + atr * 2

/-- Safety clamp for a long stop (signal_logic.py lines 546-547): a stop at
or above the entry is forced to `entry − max(1.5×ATR, 1%×entry)`. -/
def clampStopLong (entry stop atr : ℚ) : ℚ :=
  if stop ≥ entry then entry - max (atr * 1.5) (entry * 0.01) else stop

/-- Safety clamp for a short stop (signal_logic.py lines 580-581): a stop at
or below the entry is forced to `entry + max(1.5×ATR, 1%×entry)`. -/
def clampStopShort (entry stop atr : ℚ) : ℚ :=
  if stop ≤ entry then entry + max (atr * 1.5) (entry * 0.01) else stop

/-- Final long stop and risk (signal_logic.py lines 546-552): after the
clamp, when `risk = |entry − stop|` is below `1e-8` the stop is recomputed
as `entry − 2×ATR` and the risk re-derived. -/
def finalStopRiskLong (entry stop0 atr : ℚ) : ℚ × ℚ :=
  if |entry - clampStopLong entry stop0 atr| < 1 / 100000000 then
    (entry - atr * 2, |entry - (entry - atr * 2)|)
  else
    (clampStopLong entry stop0 atr, |entry - clampStopLong entry stop0 atr|)

/-- Final short stop and risk (signal_logic.py lines 580-586): after the
clamp, when `risk = |entry − stop|` is below `1e-8` the stop is recomputed
as `entry + 2×ATR` and the risk re-derived. -/
def finalStopRiskShort (entry stop0 atr : ℚ) : ℚ × ℚ :=
  if |entry - clampStopShort entry stop0 atr| < 1 / 100000000 then
    (entry + atr * 2, |entry - (entry + atr * 2)|)
  else
    (clampStopShort entry stop0 atr, |entry - clampStopShort entry stop0 atr|)

/-- Long TP2 (signal_logic.py lines 555-561): just below the 50-candle
lookback high when it clears `entry + 1.5×risk`, else `entry + risk×R` with
`R = 3.0` for a STRONG or VERY STRONG trend and `2.5` otherwise. -/
def tp2Long (entry risk lookback_high : ℚ) (quality : String) : ℚ :=
  if lookback_high > entry + risk * 1.5 then lookback_high * 0.99
  else entry + risk *
    (if quality = "STRONG" ∨ quality = "VERY STRONG" then 3.0 else 2.5)

/-- Short TP2 (signal_logic.py lines 589-595): just above the 50-candle
lookback low when it clears `entry − 1.5×risk`, else `entry − risk×R` with
`R = 3.0` for a STRONG or VERY STRONG trend and `2.5` otherwise. -/
def tp2Short (entry risk lookback_low : ℚ) (quality : String) : ℚ :=
  if lookback_low < entry - risk * 1.5 then lookback_low * 1.01
  else entry - risk *
    (if quality = "STRONG" ∨ quality = "VERY STRONG" then 3.0 else 2.5)

/-- Long branch of the trade-plan construction
(signal_logic.py lines 494, 529-561 and 597): entry, stop with clamp and
degenerate-risk recompute, `tp1 = entry + 1.5×risk`, and TP2. -/
def buildPlanLong (rf : Option FVG) (obl swing : Option ℚ)
    (cp ema21 atr lookback_high : ℚ) (quality : String) : Plan :=
  let sl_buffer := atr * 0.2
  let entry := entryLong rf obl cp ema21
  let sr := finalStopRiskLong entry (initialStopLong swing obl entry atr sl_buffer) atr
  { entry := entry
    stop := sr.1
    risk := sr.2
    tp1 := entry + sr.2 * 1.5
    tp2 := tp2Long entry sr.2 lookback_high quality }

/-- Short branch of the trade-plan construction
(signal_logic.py lines 494, 563-595 and 597): entry, stop with clamp and
degenerate-risk recompute, `tp1 = entry − 1.5×risk`, and TP2. -/
def buildPlanShort (rf : Option FVG) (obh swing : Option ℚ)
    (cp ema21 atr lookback_low : ℚ) (quality : String) : Plan :=
  let sl_buffer := atr * 0.2
  let entry := entryShort rf obh cp ema21
  let sr := finalStopRiskShort entry (initialStopShort swing obh entry atr sl_buffer) atr
  { entry := entry
    stop := sr.1
    risk := sr.2
    tp1 := entry - sr.2 * 1.5
    tp2 := tp2Short entry sr.2 lookback_low quality }

/-- `calculate_rr` (utils.py lines 6-66) as invoked from
signal_logic.py line 598, where `tp` is the numeric `tp2` (so the
string-parsing branch of the source is not taken and the float
conversions are identities): `None` when `risk = |entry − stop| < 1e-8`,
otherwise `round(|tp − entry| / risk, 2)`.  Lean's `round` rounds exact
half-ties up where Python's rounds them to even; no claim depends on the
rounded digits, only on the `None`/value distinction. -/
def calculate_rr (entry stop tp : ℚ) : Option ℚ :=
  if |entry - stop| < 1 / 100000000 then none
  else some (((round (|tp - entry| / |entry - stop| * 100) : ℤ) : ℚ) / 100)

/-- Tail of `generate_trade_plan`'s non-neutral long path
(signal_logic.py lines 529-600): the plan built by `buildPlanLong`
together with `rr = calculate_rr(entry_price, stop, tp2)` (line 598).
When `calculate_rr` returns `None` — exactly when the plan's risk is
below `1e-8` — the f-string `RR: {rr:.2f}` at line 600 raises a
TypeError, so `generate_trade_plan` raises and returns nothing: that
path is `none` here. -/
def planResultLong (rf : Option FVG) (obl swing : Option ℚ)
    (cp ema21 atr lookback_high : ℚ) (quality : String) :
    Option (Plan × ℚ) :=
  let p := buildPlanLong rf obl swing cp ema21 atr lookback_high quality
  match calculate_rr p.entry p.stop p.tp2 with
  | none => none
  | some rr => some (p, rr)

/-- Tail of `generate_trade_plan`'s non-neutral short path
(signal_logic.py lines 563-600), analogous to `planResultLong`: `none`
models the TypeError raised at line 600 when `calculate_rr` returns
`None`. -/
def planResultShort (rf : Option FVG) (obh swing : Option ℚ)
    (cp ema21 atr lookback_low : ℚ) (quality : String) :
    Option (Plan × ℚ) :=
  let p := buildPlanShort rf obh swing cp ema21 atr lookback_low quality
  match calculate_rr p.entry p.stop p.tp2 with
  | none => none
  | some rr => some (p, rr)

/-- Supported timeframes (signal_logic.py line 393). -/
def VALID_TFS : List String :=
  ["1m", "3m", "5m", "15m", "30m", "1h", "2h", "4h", "6h", "1d", "1w", "1M"]

/-- Error kinds surfaced by the head of `generate_trade_plan`. -/
inductive PlanError where
  | invalidTimeframe
  | insufficientData
deriving DecidableEq

/-- Timeframe acceptance test (signal_logic.py line 406): the lowercased
timeframe must occur among the lowercased entries of `VALID_TFS`. -/
def timeframeValid (tf : String) : Bool :=
  (VALID_TFS.map strLower).contains (strLower tf)

/-- Validation prefix of `generate_trade_plan`
(signal_logic.py lines 404-414): the timeframe check runs first and raises
`InvalidTimeframe` before the OHLC fetch; `fetched` stands for what the
fetch would produce (`none` for a failed fetch), and fewer than 50 candles
raise the insufficient-data error. -/
def generate_trade_plan_validate (tf : String) (fetched : Option (List Candle)) :
    Except PlanError (List Candle) :=
  if ¬ timeframeValid tf then .error .invalidTimeframe
  else
    match fetched with
    | none => .error .insufficientData
    | some df => if df.length < 50 then .error .insufficientData else .ok df

/-- Python float value on the confidence-scoring path: either NaN or a
rational.  Arithmetic propagates NaN; every ordered comparison involving
NaN is false, and `x != 0` is true for NaN, exactly as in IEEE/Python. -/
inductive F where
  | nan : F
  | val : ℚ → F
deriving DecidableEq

namespace F

/-- Subtraction with NaN propagation. -/
def sub : F → F → F
  | val a, val b => val (a - b)
  | _, _ => nan

/-- Multiplication with NaN propagation. -/
def mul : F → F → F
  | val a, val b => val (a * b)
  | _, _ => nan

/-- Division with NaN propagation.  A zero divisor is unreachable on the
scoring path (the source guards the denominator with `if != 0 else 1`);
the embedding maps it to NaN for totality. -/
def div : F → F → F
  | val a, val b => if b = 0 then nan else val (a / b)
  | _, _ => nan

/-- Absolute value with NaN propagation. -/
def fabs : F → F
  | val a => val |a|
  | nan => nan

/-- Strict less-than; false whenever either side is NaN. -/
def flt : F → F → Bool
  | val a, val b => decide (a < b)
  | _, _ => false

/-- Less-or-equal; false whenever either side is NaN. -/
def fle : F → F → Bool
  | val a, val b => decide (a ≤ b)
  | _, _ => false

/-- Strict greater-than; false whenever either side is NaN. -/
def fgt (a b : F) : Bool := flt b a

/-- Greater-or-equal; false whenever either side is NaN. -/
def fge (a b : F) : Bool := fle b a

/-- Python `x != 0`, which is true for NaN. -/
def neZero : F → Bool
  | val a => decide (a ≠ 0)
  | nan => true

end F

/-- EMA spread percentage (signal_logic.py line 241):
`abs(ema13 - ema21) / (current_price if current_price != 0 else 1) * 100`. -/
def emaSpreadPct (ema13 ema21 cp : F) : F :=
  (((ema13.sub ema21).fabs).div (if cp.neZero then cp else F.val 1)).mul (F.val 100)

/-- EMA alignment contribution (signal_logic.py lines 242-249). -/
def emaAlignScore (d : Direction) (ema13 ema21 : F) : ℤ :=
  if d = .long ∧ ema13.fgt ema21 then 8
  else if d = .short ∧ ema13.flt ema21 then 8
  else if d = .long ∧ ema13.fle ema21 then -5
  else if d = .short ∧ ema13.fge ema21 then -5
  else 0

/-- EMA spread contribution (signal_logic.py lines 251-256). -/
def emaSpreadScore (spread : F) : ℤ :=
  if spread.fgt (F.val 1) then 6
  else if spread.fgt (F.val 0.5) then 3
  else 0

/-- MACD momentum contribution (signal_logic.py lines 259-279), applied to
`macd_diff = macd_line - macd_signal`. -/
def macdScore (d : Direction) (macd_diff : F) : ℤ :=
  if d = .long ∧ macd_diff.fgt (F.val 0) then
    10 + (if macd_diff.fgt (F.val 0.05) then 7
          else if macd_diff.fgt (F.val 0.01) then 3 else 0)
  else if d = .short ∧ macd_diff.flt (F.val 0) then
    10 + (if macd_diff.flt (F.val (-0.05)) then 7
          else if macd_diff.flt (F.val (-0.01)) then 3 else 0)
  else if d = .long ∧ macd_diff.fle (F.val 0) then -8
  else if d = .short ∧ macd_diff.fge (F.val 0) then -8
  else 0

/-- RSI zone contribution (signal_logic.py lines 282-301). -/
def rsiScore (d : Direction) (rsi : F) : ℤ :=
  if (F.val 40).fle rsi ∧ rsi.fle (F.val 60) then 12
  else if d = .long ∧ (F.val 30).fle rsi ∧ rsi.flt (F.val 40) then 10
  else if d = .short ∧ (F.val 60).flt rsi ∧ rsi.fle (F.val 70) then 10
  else if d = .long ∧ rsi.fgt (F.val 70) then -10
  else if d = .short ∧ rsi.flt (F.val 30) then -10
  else if ((F.val 30).fle rsi ∧ rsi.flt (F.val 40)) ∨
          ((F.val 60).flt rsi ∧ rsi.fle (F.val 70)) then 5
  else 0

/-- SMC structure contribution (signal_logic.py lines 304-322): +8 for a
relevant FVG, +7 for a truthy Order Block bound, +5 when the entry sits
within 0.2% of the FVG level. -/
def smcScore (rf : Option FVG) (obh obl : Option ℚ) (entry cp : F) : ℤ :=
  (if rf.isSome then 8 else 0) +
  (if truthyQ obh ∨ truthyQ obl then 7 else 0) +
  (match rf with
   | some fvg =>
      if (((entry.sub (F.val fvg.level)).fabs).div
            (if cp.neZero then cp else F.val 1)).mul (F.val 100)
          |>.fle (F.val 0.2) then 5 else 0
   | none => 0)

/-- Stochastic contribution before clamping
(signal_logic.py lines 327-353), for the branch where both `%K` and `%D`
are available. -/
def stochScoreRaw (d : Direction) (k dd : F) : ℤ :=
  if d = .long ∧ k.fgt dd then
    8 + (if k.flt (F.val 20) then 4
         else if k.fgt (F.val 80) then -3 else 0)
  else if d = .short ∧ k.flt dd then
    8 + (if k.fgt (F.val 80) then 4
         else if k.flt (F.val 20) then -3 else 0)
  else if d = .long ∧ k.flt (F.val 30) then 3
  else if d = .short ∧ k.fgt (F.val 70) then 3
  else 0

/-- Stochastic contribution (signal_logic.py lines 325-358): zero when
either series is unavailable, else the raw score clamped to `[-5, 12]`. -/
def stochScore (d : Direction) (k dd : Option F) : ℤ :=
  match k, dd with
  | some k, some dd => max (min (stochScoreRaw d k dd) 12) (-5)
  | _, _ => 0

/-- Volume contribution (signal_logic.py lines 361-373), applied to the
optional volume ratio. -/
def volScore (vr : Option F) : ℤ :=
  match vr with
  | some v =>
      if v.fge (F.val 1.5) then 13
      else if v.fge (F.val 1) then 8
      else if v.fge (F.val 0.7) then 3
      else -7
  | none => 0

/-- Sum of the signed contributions of `calculate_confidence_score`
(signal_logic.py lines 231-373), before the final clamp.  The divergence
and trend-strength parameters of the source only receive defaults and feed
no contribution, so they are omitted; the reason strings never affect the
score and are omitted as well. -/
def rawConfidenceScore (d : Direction) (ema13 ema21 macd_line macd_signal rsi : F)
    (stoch_k stoch_d : Option F) (vr : Option F)
    (rf : Option FVG) (obh obl : Option ℚ) (entry cp : F) : ℤ :=
  emaAlignScore d ema13 ema21 +
  emaSpreadScore (emaSpreadPct ema13 ema21 cp) +
  macdScore d (macd_line.sub macd_signal) +
  rsiScore d rsi +
  smcScore rf obh obl entry cp +
  stochScore d stoch_k stoch_d +
  volScore vr

/-- Confidence label thresholds (signal_logic.py lines 377-384); the emoji
suffixes of the source labels are dropped. -/
def confidenceLabel (score : ℤ) : String :=
  if score ≥ 80 then "HIGH"
  else if score ≥ 60 then "MEDIUM"
  else if score ≥ 40 then "LOW"
  else "VERY LOW"

/-- `calculate_confidence_score` (signal_logic.py lines 219-388), returning
the clamped integer score and its label: the signed contributions are
summed and the total is clamped by `max(0, min(score, 100))`
(line 376; `int(round(·))` of an integer is the identity). -/
def calculate_confidence_score (d : Direction)
    (ema13 ema21 macd_line macd_signal rsi : F)
    (stoch_k stoch_d : Option F) (vr : Option F)
    (rf : Option FVG) (obh obl : Option ℚ) (entry cp : F) : ℤ × String :=
  let score := max 0 (min (rawConfidenceScore d ema13 ema21 macd_line
    macd_signal rsi stoch_k stoch_d vr rf obh obl entry cp) 100)
  (score, confidenceLabel score)

/-- Rendering of the spec's entry-fallback sentence for the long side, read
literally: "entry = EMA(long) if price has pulled back near it, otherwise
current price", with "near" taken as the code's own 0.5% band around the
long EMA.  Compared against `entryLong`, the definition from the source. -/
def entry_fallback_per_spec (cp ema_long : ℚ) : ℚ :=
  if |cp - ema_long| ≤ ema_long * 0.005 then ema_long else cp

/-- Concrete three-candle series of the spec's FVG example:
`candle[0].high = 100`, `candle[2].low = 105`. -/
def fvgExample : List Candle := [⟨100, 95, 98⟩, ⟨99, 96, 97⟩, ⟨110, 105, 108⟩]

/-- Concrete 50-candle series used to witness length-conditioned claims. -/
def df50 : List Candle := List.replicate 50 ⟨5, 1, 3⟩

/-! Helper lemmas about the structure detector. -/

/-- Unfolding characterisation of the loop body `fvgAt`. -/
lemma fvgAt_eq_some_iff {df : List Candle} {i : ℕ} {g : FVG} :
    fvgAt df i = some g ↔
      ∃ c1 c3, df.get? (i - 2) = some c1 ∧ df.get? i = some c3 ∧
        ((c1.high < c3.low ∧
            g = ⟨.Bullish, c3.low, c1.high, (c3.low + c1.high) / 2, i⟩) ∨
         (¬ c1.high < c3.low ∧ c3.high < c1.low ∧
            g = ⟨.Bearish, c1.low, c3.high, (c1.low + c3.high) / 2, i⟩)) := by
  unfold fvgAt
  rcases h1 : df.get? (i - 2) with _ | c1 <;> rcases h2 : df.get? i with _ | c3 <;>
    simp [h1, h2]
  split_ifs with hb hbe
  · simp [hb, eq_comm]
  · simp only [hb, hbe, not_false_iff, true_and, false_and, false_or, not_lt]
    simp [eq_comm, not_lt.mp hb]
  · simp [hb, hbe]

/-- A gap produced at index `i` records `i` as its bar index. -/
lemma fvgAt_bar_index {df : List Candle} {i : ℕ} {g : FVG}
    (h : fvgAt df i = some g) : g.bar_index = i := by
  obtain ⟨c1, c3, -, -, hd⟩ := fvgAt_eq_some_iff.mp h
  rcases hd with ⟨-, rfl⟩ | ⟨-, -, rfl⟩ <;> rfl

/-- Membership in `detect_fvg` output in terms of `fvgAt`. -/
lemma mem_detect_fvg {df : List Candle} {g : FVG} :
    g ∈ detect_fvg df ↔
      2 ≤ g.bar_index ∧ g.bar_index < df.length ∧
        fvgAt df g.bar_index = some g := by
  unfold detect_fvg
  rw [List.mem_filterMap]
  constructor
  · rintro ⟨a, ha, hfa⟩
    have hb := fvgAt_bar_index hfa
    obtain ⟨h2, -⟩ := List.mem_range'_1.mp ha
    obtain ⟨c1, c3, -, h3, -⟩ := fvgAt_eq_some_iff.mp hfa
    have hlt : a < df.length := by
      by_contra hge
      rw [List.get?_eq_none.mpr (by omega)] at h3
      exact Option.noConfusion h3
    exact ⟨hb ▸ h2, hb ▸ hlt, hb ▸ hfa⟩
  · rintro ⟨h2, hlt, hfa⟩
    exact ⟨g.bar_index, List.mem_range'_1.mpr ⟨h2, by omega⟩, hfa⟩

/-- Pairwise transfer along `filterMap`. -/
lemma pairwise_filterMap_of {α β : Type} {R : α → α → Prop} {S : β → β → Prop}
    (f : β → Option α) {l : List β} (hl : l.Pairwise S)
    (h : ∀ a b, S a b → ∀ x, f a = some x → ∀ y, f b = some y → R x y) :
    (l.filterMap f).Pairwise R := by
  induction hl with
  | nil => simp
  | @cons a l' ha hl' ih =>
      rcases hfa : f a with _ | x <;> simp only [List.filterMap_cons, hfa]
      · exact ih
      · refine List.Pairwise.cons ?_ ih
        intro y hy
        obtain ⟨b, hb, hfb⟩ := List.mem_filterMap.mp hy
        exact h a b (ha b hb) x hfa y hfb

/-- The detected gaps are listed in strictly ascending bar index. -/
lemma detect_fvg_pairwise (df : List Candle) :
    (detect_fvg df).Pairwise fun a b => a.bar_index < b.bar_index := by
  unfold detect_fvg
  refine pairwise_filterMap_of (fvgAt df)
    (List.pairwise_lt_range' 2 (df.length - 2)) ?_
  intro a b hab x hx y hy
  rw [fvgAt_bar_index hx, fvgAt_bar_index hy]
  exact hab

/-- The first-minimum fold stays within the candidate list. -/
lemma foldl_closest_mem (c : ℚ) :
    ∀ (fs : List FVG) (f : FVG),
      fs.foldl (fun best g => if |g.level - c| < |best.level - c| then g else best) f
        ∈ f :: fs := by
  intro fs
  induction fs with
  | nil => intro f; simp
  | cons g gs ih =>
      intro f
      simp only [List.foldl_cons]
      have h := ih (if |g.level - c| < |f.level - c| then g else f)
      rcases List.mem_cons.mp h with h' | h'
      · rw [h']
        split_ifs
        · exact List.mem_cons_of_mem f (List.mem_cons_self g gs)
        · exact List.mem_cons_self f _
      · exact List.mem_cons_of_mem f (List.mem_cons_of_mem g h')

/-- The selected relevant FVG is one of the candidates. -/
lemma closestFvg_mem {fvgs : List FVG} {c : ℚ} {g : FVG}
    (h : closestFvg fvgs c = some g) : g ∈ fvgs := by
  unfold closestFvg at h
  rcases fvgs with _ | ⟨f, fs⟩
  · exact Option.noConfusion h
  · rw [← Option.some.inj h]
    exact foldl_closest_mem c fs f

/-- C6: for well-formed candles (low ≤ high), `detect_fvg` scans every index
`i ≥ 2`, emits a Bullish FVG exactly when `low[i] > high[i-2]` and a Bearish
FVG exactly when `high[i] < low[i-2]` (the middle candle is ignored), with
level equal to the gap midpoint and `bar_index = i`, in ascending bar-index
order; and the concrete example with `candle[2].low = 105`,
`candle[0].high = 100` yields a Bullish FVG with level `102.5` at
`bar_index = 2`. -/
theorem C6_fvg_characterization :
    (∀ (df : List Candle), (∀ c ∈ df, c.low ≤ c.high) → ∀ g : FVG,
      (g ∈ detect_fvg df ↔
        ∃ c1 c3, 2 ≤ g.bar_index ∧ g.bar_index < df.length ∧
          df.get? (g.bar_index - 2) = some c1 ∧ df.get? g.bar_index = some c3 ∧
          ((c1.high < c3.low ∧
              g = ⟨.Bullish, c3.low, c1.high, (c3.low + c1.high) / 2,
                g.bar_index⟩) ∨
           (c3.high < c1.low ∧
              g = ⟨.Bearish, c1.low, c3.high, (c1.low + c3.high) / 2,
                g.bar_index⟩)))) ∧
    (∀ df : List Candle,
      (detect_fvg df).Pairwise fun a b => a.bar_index < b.bar_index) ∧
    detect_fvg fvgExample = [⟨.Bullish, 105, 100, 205 / 2, 2⟩] := by
  refine ⟨?_, detect_fvg_pairwise, ?_⟩
  · intro df hwf g
    rw [mem_detect_fvg]
    constructor
    · rintro ⟨h2, hlt, hfa⟩
      obtain ⟨c1, c3, hg1, hg3, hd⟩ := fvgAt_eq_some_iff.mp hfa
      refine ⟨c1, c3, h2, hlt, hg1, hg3, ?_⟩
      rcases hd with ⟨hb, hg⟩ | ⟨-, hb, hg⟩
      · exact Or.inl ⟨hb, hg⟩
      · exact Or.inr ⟨hb, hg⟩
    · rintro ⟨c1, c3, h2, hlt, hg1, hg3, hd⟩
      refine ⟨h2, hlt, fvgAt_eq_some_iff.mpr ⟨c1, c3, hg1, hg3, ?_⟩⟩
      rcases hd with ⟨hb, hg⟩ | ⟨hb, hg⟩
      · exact Or.inl ⟨hb, hg⟩
      · refine Or.inr ⟨?_, hb, hg⟩
        have w1 := hwf c1 (List.get?_mem hg1)
        have w3 := hwf c3 (List.get?_mem hg3)
        intro hcon
        linarith
  · norm_num [detect_fvg, fvgAt, fvgExample, List.range', List.filterMap_cons,
      List.getElem?_cons_zero, List.getElem?_cons_succ]

/-- Witness for C6 at the concrete example series. -/
theorem C6_fvg_characterization_witness :
    (⟨FVGType.Bullish, 105, 100, 205 / 2, 2⟩ : FVG) ∈ detect_fvg fvgExample := by
  have h := (C6_fvg_characterization.1 fvgExample (by decide)
    ⟨.Bullish, 105, 100, 205 / 2, 2⟩).mpr
  exact h ⟨⟨100, 95, 98⟩, ⟨110, 105, 108⟩, by norm_num, by
    norm_num [fvgExample], by decide, by decide,
    Or.inl ⟨by norm_num, by norm_num [FVG.mk.injEq]⟩⟩

/-- C9: every FVG produced by `detect_fvg` has `bar_index ≥ 2`, so when
`find_smc_levels` selects a relevant FVG from `detect_fvg`'s output on the
same series, the Order Block index `bar_index − 2` is in range and both
`ob_high` and `ob_low` are present. -/
theorem C9_order_block_present (df : List Candle) (d : Direction) (g : FVG)
    (h : (find_smc_levels df (detect_fvg df) d).relevant_fvg = some g) :
    2 ≤ g.bar_index ∧
    (find_smc_levels df (detect_fvg df) d).ob_high.isSome ∧
    (find_smc_levels df (detect_fvg df) d).ob_low.isSome := by
  simp only [find_smc_levels] at h ⊢
  rcases hc : closestFvg
      ((detect_fvg df).filter fun f =>
        f.type = if d = .long then .Bullish else .Bearish)
      (df.getLastD ⟨0, 0, 0⟩).close with _ | g'
  · rw [hc] at h
    exact Option.noConfusion h
  · have hmem : g' ∈ detect_fvg df :=
      (List.mem_filter.mp (closestFvg_mem hc)).1
    obtain ⟨h2, hlt, -⟩ := mem_detect_fvg.mp hmem
    rw [hc] at h
    dsimp only at h ⊢
    rw [if_pos h2] at h ⊢
    rcases h3 : df.get? (g'.bar_index - 2) with _ | ob
    · exact absurd (List.get?_eq_none.mp h3) (by omega)
    · rw [h3] at h
      dsimp only at h ⊢
      obtain rfl : g' = g := Option.some.inj h
      exact ⟨h2, rfl, rfl⟩

/-- Witness for C9 at the concrete example series. -/
theorem C9_order_block_present_witness :
    2 ≤ (⟨FVGType.Bullish, 105, 100, 205 / 2, 2⟩ : FVG).bar_index ∧
    (find_smc_levels fvgExample (detect_fvg fvgExample) .long).ob_high.isSome ∧
    (find_smc_levels fvgExample (detect_fvg fvgExample) .long).ob_low.isSome := by
  refine C9_order_block_present fvgExample .long _ ?_
  norm_num [find_smc_levels, detect_fvg, fvgAt, fvgExample, closestFvg,
    List.range', List.filterMap_cons, List.getElem?_cons_zero,
    List.getElem?_cons_succ, List.filter_cons, List.getLastD]

/-- The recorded risk always equals the absolute distance between entry and
the final long stop. -/
lemma finalStopRiskLong_risk (entry stop0 atr : ℚ) :
    (finalStopRiskLong entry stop0 atr).2 =
      |entry - (finalStopRiskLong entry stop0 atr).1| := by
  unfold finalStopRiskLong
  split_ifs <;> rfl

/-- The recorded risk always equals the absolute distance between entry and
the final short stop. -/
lemma finalStopRiskShort_risk (entry stop0 atr : ℚ) :
    (finalStopRiskShort entry stop0 atr).2 =
      |entry - (finalStopRiskShort entry stop0 atr).1| := by
  unfold finalStopRiskShort
  split_ifs <;> rfl

/-- With positive ATR, the clamped long stop is strictly below the entry. -/
lemma clampStopLong_lt (entry stop atr : ℚ) (ha : 0 < atr) :
    clampStopLong entry stop atr < entry := by
  unfold clampStopLong
  split_ifs with h
  · have h15 : atr * 1.5 ≤ max (atr * 1.5) (entry * 0.01) := le_max_left _ _
    nlinarith
  · exact lt_of_not_le h

/-- With positive ATR, the clamped short stop is strictly above the entry. -/
lemma clampStopShort_gt (entry stop atr : ℚ) (ha : 0 < atr) :
    entry < clampStopShort entry stop atr := by
  unfold clampStopShort
  split_ifs with h
  · have h15 : atr * 1.5 ≤ max (atr * 1.5) (entry * 0.01) := le_max_left _ _
    nlinarith
  · exact lt_of_not_le fun hc => h hc

/-- With positive ATR, the final long stop is strictly below the entry. -/
lemma finalStopRiskLong_stop_lt (entry stop0 atr : ℚ) (ha : 0 < atr) :
    (finalStopRiskLong entry stop0 atr).1 < entry := by
  unfold finalStopRiskLong
  split_ifs
  · dsimp only
    linarith
  · exact clampStopLong_lt entry stop0 atr ha

/-- With positive ATR, the final short stop is strictly above the entry. -/
lemma finalStopRiskShort_stop_gt (entry stop0 atr : ℚ) (ha : 0 < atr) :
    entry < (finalStopRiskShort entry stop0 atr).1 := by
  unfold finalStopRiskShort
  split_ifs
  · dsimp only
    linarith
  · exact clampStopShort_gt entry stop0 atr ha

/-- C1: for every invocation of `calculate_confidence_score` — over all
directions, all indicator values including NaN, absent stochastic or volume
data, and any structure inputs — the confidence score is an integer (it is
of type `ℤ` by construction: every rule contributes an integer delta) and
lies in `[0, 100]`: the signed contributions are summed and clamped. -/
theorem C1_confidence_bounds (d : Direction)
    (ema13 ema21 macd_line macd_signal rsi : F)
    (stoch_k stoch_d vr : Option F) (rf : Option FVG) (obh obl : Option ℚ)
    (entry cp : F) :
    0 ≤ (calculate_confidence_score d ema13 ema21 macd_line macd_signal rsi
        stoch_k stoch_d vr rf obh obl entry cp).1 ∧
    (calculate_confidence_score d ema13 ema21 macd_line macd_signal rsi
        stoch_k stoch_d vr rf obh obl entry cp).1 ≤ 100 := by
  unfold calculate_confidence_score
  exact ⟨le_max_left _ _, max_le (by norm_num) (min_le_right _ _)⟩

/-- C2: for both non-neutral branches, `tp1 = entry ± 1.5 × |entry − stop|`
exactly, with the plus sign for long and the minus sign for short. -/
theorem C2_tp1_consistency :
    (∀ (rf : Option FVG) (obl swing : Option ℚ) (cp ema21 atr lbh : ℚ)
        (q : String),
      (buildPlanLong rf obl swing cp ema21 atr lbh q).tp1 =
        (buildPlanLong rf obl swing cp ema21 atr lbh q).entry +
          1.5 * |(buildPlanLong rf obl swing cp ema21 atr lbh q).entry -
            (buildPlanLong rf obl swing cp ema21 atr lbh q).stop|) ∧
    (∀ (rf : Option FVG) (obh swing : Option ℚ) (cp ema21 atr lbl : ℚ)
        (q : String),
      (buildPlanShort rf obh swing cp ema21 atr lbl q).tp1 =
        (buildPlanShort rf obh swing cp ema21 atr lbl q).entry -
          1.5 * |(buildPlanShort rf obh swing cp ema21 atr lbl q).entry -
            (buildPlanShort rf obh swing cp ema21 atr lbl q).stop|) := by
  constructor
  · intro rf obl swing cp ema21 atr lbh q
    simp only [buildPlanLong]
    rw [finalStopRiskLong_risk]
    ring
  · intro rf obh swing cp ema21 atr lbl q
    simp only [buildPlanShort]
    rw [finalStopRiskShort_risk]
    ring

/-- C3: for every non-neutral result that `generate_trade_plan` actually
returns, `|entry − stop| > 0`: the stop-forcing steps (a wrong-side stop
forced to `entry ∓ max(1.5×ATR, 1%×entry)`, a collapsed risk forcing
`stop = entry ∓ 2×ATR`) are part of the embedded plan construction, and a
plan whose risk still ends below `1e-8` makes `calculate_rr` return `None`,
whereupon the line-600 format raises and no result is returned at all — so
every returned plan satisfies `|entry − stop| ≥ 1e-8 > 0`. -/
theorem C3_risk_positivity :
    (∀ (rf : Option FVG) (obl swing : Option ℚ) (cp ema21 atr lbh : ℚ)
        (q : String) (p : Plan) (rr : ℚ),
      planResultLong rf obl swing cp ema21 atr lbh q = some (p, rr) →
      0 < |p.entry - p.stop|) ∧
    (∀ (rf : Option FVG) (obh swing : Option ℚ) (cp ema21 atr lbl : ℚ)
        (q : String) (p : Plan) (rr : ℚ),
      planResultShort rf obh swing cp ema21 atr lbl q = some (p, rr) →
      0 < |p.entry - p.stop|) := by
  constructor
  · intro rf obl swing cp ema21 atr lbh q p rr h
    unfold planResultLong at h
    dsimp only at h
    rcases hc : calculate_rr
        (buildPlanLong rf obl swing cp ema21 atr lbh q).entry
        (buildPlanLong rf obl swing cp ema21 atr lbh q).stop
        (buildPlanLong rf obl swing cp ema21 atr lbh q).tp2 with _ | rr'
    · rw [hc] at h
      exact Option.noConfusion h
    · rw [hc] at h
      dsimp only at h
      have hp : buildPlanLong rf obl swing cp ema21 atr lbh q = p :=
        congrArg Prod.fst (Option.some.inj h)
      unfold calculate_rr at hc
      split_ifs at hc with hlt
      rw [← hp]
      push_neg at hlt
      linarith
  · intro rf obh swing cp ema21 atr lbl q p rr h
    unfold planResultShort at h
    dsimp only at h
    rcases hc : calculate_rr
        (buildPlanShort rf obh swing cp ema21 atr lbl q).entry
        (buildPlanShort rf obh swing cp ema21 atr lbl q).stop
        (buildPlanShort rf obh swing cp ema21 atr lbl q).tp2 with _ | rr'
    · rw [hc] at h
      exact Option.noConfusion h
    · rw [hc] at h
      dsimp only at h
      have hp : buildPlanShort rf obh swing cp ema21 atr lbl q = p :=
        congrArg Prod.fst (Option.some.inj h)
      unfold calculate_rr at hc
      split_ifs at hc with hlt
      rw [← hp]
      push_neg at hlt
      linarith

/-- Witness for C3 at a concrete returned long plan (entry 100, swing
point 1, ATR 1: the returned plan has stop 0.8, risk 99.2, rr 2.5). -/
theorem C3_risk_positivity_witness :
    0 < |(Plan.mk 100 (4 / 5) (496 / 5) (1244 / 5) 348).entry -
        (Plan.mk 100 (4 / 5) (496 / 5) (1244 / 5) 348).stop| := by
  have hq : ¬ (("WEAK" : String) = "STRONG" ∨
      ("WEAK" : String) = "VERY STRONG") := by decide
  have habs : |(496 / 5 : ℚ)| = 496 / 5 := abs_of_pos (by norm_num)
  have hplan : buildPlanLong none none (some 1) 100 100 1 0 "WEAK" =
      Plan.mk 100 (4 / 5) (496 / 5) (1244 / 5) 348 := by
    norm_num [buildPlanLong, entryLong, initialStopLong, finalStopRiskLong,
      clampStopLong, truthyQ, tp2Long, hq, habs]
  have habs1 : |(100 : ℚ) - 4 / 5| = 496 / 5 := by
    rw [show (100 : ℚ) - 4 / 5 = 496 / 5 by norm_num]
    exact habs
  have habs3 : |(348 : ℚ) - 100| = 248 := by
    rw [show (348 : ℚ) - 100 = 248 by norm_num]
    exact abs_of_pos (by norm_num)
  have hguard : ¬ ((496 / 5 : ℚ) < 1 / 100000000) := by norm_num
  have hdiv : (248 : ℚ) / (496 / 5) * 100 = 250 := by norm_num
  have hrr : calculate_rr (100 : ℚ) (4 / 5) 348 = some (5 / 2) := by
    unfold calculate_rr
    rw [habs1]
    rw [if_neg hguard]
    rw [habs3]
    rw [hdiv]
    norm_num
  have hres : planResultLong none none (some 1) 100 100 1 0 "WEAK" =
      some (Plan.mk 100 (4 / 5) (496 / 5) (1244 / 5) 348, 5 / 2) := by
    delta planResultLong
    rw [hplan]
    dsimp only
    rw [hrr]
  exact C3_risk_positivity.1 none none (some 1) 100 100 1 0 "WEAK"
    (Plan.mk 100 (4 / 5) (496 / 5) (1244 / 5) 348) (5 / 2) hres

/-- C10: with at least 50 candles (hence at least the 20-candle lookback),
`find_swing_points` returns a swing extreme; and whenever that value is
nonzero the initial stop is taken from the swing-point branch
(`swing ∓ 0.2×ATR`, before the safety clamp), so the Order-Block fallback
and the bare `entry ∓ 2×ATR` fallback are not reached. -/
theorem C10_swing_stop :
    (∀ (df : List Candle) (d : Direction), 50 ≤ df.length →
      (find_swing_points df d 20).isSome) ∧
    (∀ (obq : Option ℚ) (entry atr v : ℚ), v ≠ 0 →
      initialStopLong (some v) obq entry atr (atr * 0.2) = v - atr * 0.2 ∧
      initialStopShort (some v) obq entry atr (atr * 0.2) = v + atr * 0.2) := by
  constructor
  · intro df d h
    unfold find_swing_points
    rw [if_neg (by omega)]
    have hlen : (df.drop (df.length - 20)).length = 20 := by
      rw [List.length_drop]; omega
    rcases hr : df.drop (df.length - 20) with _ | ⟨c, cs⟩
    · rw [hr] at hlen
      simp at hlen
    · dsimp only
      split_ifs <;> simp [listMin, listMax]
  · intro obq entry atr v hv
    have ht : truthyQ (some v) = true := by simp [truthyQ, hv]
    unfold initialStopLong initialStopShort
    rw [ht]
    simp

/-- Witness for C10 at a concrete 50-candle series and concrete stop
inputs. -/
theorem C10_swing_stop_witness :
    (find_swing_points df50 .long 20).isSome ∧
    initialStopLong (some 1) none 10 2 (2 * 0.2) = 1 - 2 * 0.2 := by
  refine ⟨C10_swing_stop.1 df50 .long (by norm_num [df50]), ?_⟩
  exact (C10_swing_stop.2 none 10 2 1 (by norm_num)).1

/-- C8 counterexample: matching is case-insensitive in the code, so the
timeframe string `1H`, which is not in the supported enumeration, is
nevertheless accepted (no InvalidTimeframe error), refuting the claim's
"exactly when not in the enumeration". -/
theorem C8_timeframe_counterexample :
    "1H" ∉ VALID_TFS ∧
    generate_trade_plan_validate "1H" none ≠ .error .invalidTimeframe := by
  refine ⟨by simp [VALID_TFS], ?_⟩
  have h0 : generate_trade_plan_validate "1H" none = .error .insufficientData :=
    rfl
  rw [h0]
  simp

/-- C8 amended: `generate_trade_plan` fails with the InvalidTimeframe error
exactly when the lowercased timeframe is not among the lowercased supported
enumeration (acceptance is case-insensitive), and this failure is decided
before any fetched data is consulted (it holds for every value of
`fetched`, including a failed fetch). -/
theorem C8_timeframe_amended (tf : String) (fetched : Option (List Candle)) :
    generate_trade_plan_validate tf fetched = .error .invalidTimeframe ↔
      strLower tf ∉ VALID_TFS.map strLower := by
  unfold generate_trade_plan_validate timeframeValid
  by_cases h : strLower tf ∈ VALID_TFS.map strLower
  · rw [if_neg (by simpa using h)]
    simp only [h, not_true_eq_false, iff_false]
    rcases fetched with _ | df
    · simp
    · dsimp only
      split_ifs <;> simp
  · rw [if_pos (by simpa using h)]
    simp [h]

/-- Witness for C8 amended at a concrete unsupported timeframe. -/
theorem C8_timeframe_amended_witness :
    generate_trade_plan_validate "7m" none = .error .invalidTimeframe :=
  (C8_timeframe_amended "7m" none).mpr (by decide)

/-- C7 counterexample: with no FVG and the current price 10% above the long
EMA (so the price has not pulled back near it), the code enters at the EMA
while the claim's literal fallback ("EMA if price has pulled back near it,
otherwise current price") yields the current price. -/
theorem C7_entry_counterexample :
    entryLong none none 110 100 = 100 ∧
    entry_fallback_per_spec 110 100 = 110 ∧
    entryLong none none 110 100 ≠ entry_fallback_per_spec 110 100 := by
  norm_num [entryLong, entry_fallback_per_spec, truthyQ]

/-- C7 amended: when no relevant FVG together with a truthy matching Order
Block bound exists, the entry is the long EMA when the current price is
extended more than 0.5% beyond it (the plan waits for a pullback), and the
current price otherwise; when both exist, the entry is the FVG's low for
long and the FVG's high for short. -/
theorem C7_entry_amended :
    (∀ (rf : Option FVG) (obl : Option ℚ) (cp ema21 : ℚ),
      rf = none ∨ truthyQ obl = false →
      entryLong rf obl cp ema21 = if cp > ema21 * 1.005 then ema21 else cp) ∧
    (∀ (fvg : FVG) (obl : Option ℚ) (cp ema21 : ℚ), truthyQ obl = true →
      entryLong (some fvg) obl cp ema21 = fvg.low) ∧
    (∀ (rf : Option FVG) (obh : Option ℚ) (cp ema21 : ℚ),
      rf = none ∨ truthyQ obh = false →
      entryShort rf obh cp ema21 = if cp < ema21 * 0.995 then ema21 else cp) ∧
    (∀ (fvg : FVG) (obh : Option ℚ) (cp ema21 : ℚ), truthyQ obh = true →
      entryShort (some fvg) obh cp ema21 = fvg.high) := by
  refine ⟨?_, ?_, ?_, ?_⟩
  · rintro rf obl cp ema21 (rfl | hf)
    · rfl
    · unfold entryLong
      rw [hf]
      rcases rf with _ | fvg <;> rfl
  · intro fvg obl cp ema21 ht
    unfold entryLong
    rw [ht]
  · rintro rf obh cp ema21 (rfl | hf)
    · rfl
    · unfold entryShort
      rw [hf]
      rcases rf with _ | fvg <;> rfl
  · intro fvg obh cp ema21 ht
    unfold entryShort
    rw [ht]

/-- Witness for C7 amended at concrete inputs exercising the FVG branch. -/
theorem C7_entry_amended_witness :
    entryLong (some ⟨.Bullish, 105, 100, 205 / 2, 2⟩) (some 95) 108 100 = 100 :=
  C7_entry_amended.2.1 ⟨.Bullish, 105, 100, 205 / 2, 2⟩ (some 95) 108 100
    (by decide)

/-- C5: a caller-supplied forced direction of long or short replaces the
auto-resolved direction unconditionally (the weak-trend filter is bypassed),
and the resolved direction is always exactly one of long, short, neutral. -/
theorem C5_forced_direction :
    (∀ (ema13 ema21 rsi_val : ℚ) (q : String) (dv : Divergences) (fd : String),
      (strLower fd = "long" →
        resolveDirection ema13 ema21 rsi_val q dv (some fd) = .long) ∧
      (strLower fd = "short" →
        resolveDirection ema13 ema21 rsi_val q dv (some fd) = .short)) ∧
    (∀ (ema13 ema21 rsi_val : ℚ) (q : String) (dv : Divergences)
        (fo : Option String),
      resolveDirection ema13 ema21 rsi_val q dv fo = .long ∨
      resolveDirection ema13 ema21 rsi_val q dv fo = .short ∨
      resolveDirection ema13 ema21 rsi_val q dv fo = .neutral) := by
  constructor
  · intro e13 e21 r q dv fd
    constructor
    · intro h
      have hne : fd ≠ "" := by
        intro he
        rw [he] at h
        exact absurd h (by decide)
      unfold resolveDirection applyForced
      dsimp only
      rw [h, if_pos ⟨hne, Or.inl rfl⟩, if_pos rfl]
    · intro h
      have hne : fd ≠ "" := by
        intro he
        rw [he] at h
        exact absurd h (by decide)
      unfold resolveDirection applyForced
      dsimp only
      rw [h, if_pos ⟨hne, Or.inr rfl⟩, if_neg (by decide)]
  · intro e13 e21 r q dv fo
    rcases hr : resolveDirection e13 e21 r q dv fo with _ | _ | _
    · exact Or.inl rfl
    · exact Or.inr (Or.inl rfl)
    · exact Or.inr (Or.inr rfl)

/-- Witness for C5 at a concrete forced override (auto side would be short,
forced `LONG` wins). -/
theorem C5_forced_direction_witness :
    resolveDirection 1 2 50 "WEAK" ⟨false, false, false, false⟩ (some "LONG") =
      .long :=
  (C5_forced_direction.1 1 2 50 "WEAK" ⟨false, false, false, false⟩ "LONG").1
    (by decide)

/-- C4: when the auto-resolved direction is non-neutral and the trend
quality is WEAK, the direction is downgraded to neutral unless a divergence
flag supports that direction (bullish RSI or MACD divergence for long,
bearish for short), in which case it is kept. -/
theorem C4_weak_trend_filter (ema13 ema21 rsi_val : ℚ) (dv : Divergences)
    (h : autoDirection ema13 ema21 rsi_val ≠ .neutral) :
    resolveDirection ema13 ema21 rsi_val "WEAK" dv none =
      if (autoDirection ema13 ema21 rsi_val = .long ∧
            (dv.rsi_bull ∨ dv.macd_bull)) ∨
         (autoDirection ema13 ema21 rsi_val = .short ∧
            (dv.rsi_bear ∨ dv.macd_bear))
      then autoDirection ema13 ema21 rsi_val
      else .neutral := by
  unfold resolveDirection applyForced weakTrendFilter
  rw [if_pos ⟨h, rfl⟩]
  split_ifs <;> rfl

/-- Witness for C4: EMA13 above EMA21 with mid RSI auto-resolves long, WEAK
quality and no divergence downgrade it to neutral. -/
theorem C4_weak_trend_filter_witness :
    resolveDirection 2 1 50 "WEAK" ⟨false, false, false, false⟩ none =
      .neutral := by
  have h := C4_weak_trend_filter 2 1 50 ⟨false, false, false, false⟩ (by decide)
  simpa using h

end SignalLogic
